import Mathlib

/-!
Verification of the August integration's device-state cache and
activity-stream reconciliation layer.

The definitions below are a shallow embedding of the Python sources:
`activity.py` (ActivityStream), `__init__.py` (AugustData: detail cache,
activity mapping, lock/unlock facade) and `lock.py` (AugustLock entity).
Python dicts (which preserve insertion order) are embedded as association
lists with in-place replacement; timestamps are naturals; exceptions are
`Except`; the vendor API is an oracle function parameter.
-/

set_option autoImplicit false

namespace August

/-! Data model: Activity, DeviceDetail, devices. -/

inductive ActivityType where
  | lockOperation
  | doorOperation
  | doorbellMotion
  | doorbellDing
deriving DecidableEq

inductive LockStatus where
  | locked
  | unlocked
  | statusUnknown
deriving DecidableEq

/-- Immutable vendor event record (spec section 3).  The payload fields kept
here are the ones the embedded code inspects. -/
structure Activity where
  device_id : String
  activity_type : ActivityType
  activity_start_time : Nat
  activity_end_time : Nat
  operated_by : Option String
  lock_status : Option LockStatus
deriving DecidableEq

/-- Per-device snapshot of vendor state (the fields the embedded code
inspects). -/
structure DeviceDetail where
  device_id : String
  lock_status : LockStatus
  bridge_is_online : Bool
deriving DecidableEq

/-- A discovered device (Lock or Doorbell): identity, display name, house. -/
structure AugustDevice where
  device_id : String
  device_name : String
  house_id : String
deriving DecidableEq

/-! Python dict embedding: association lists in insertion order, with
in-place replacement on an existing key (`dict[k] = v`), `dict.get`
(`dictGet`) and `dict.setdefault`. -/

def dictGet {κ β : Type} [DecidableEq κ] (l : List (κ × β)) (k : κ) : Option β :=
  match l with
  | [] => none
  | (k', v) :: t => if k' = k then some v else dictGet t k

def dictSet {κ β : Type} [DecidableEq κ] (l : List (κ × β)) (k : κ) (v : β) :
    List (κ × β) :=
  match l with
  | [] => [(k, v)]
  | (k', v') :: t => if k' = k then (k', v) :: t else (k', v') :: dictSet t k v

def dict_setdefault {κ β : Type} [DecidableEq κ] (l : List (κ × β)) (k : κ) (v : β) :
    List (κ × β) :=
  match dictGet l k with
  | some _ => l
  | none => l ++ [(k, v)]

/-! ActivityStream (activity.py): the Latest-Activity Table maps
`device_id` to a map from `activity_type` to the most recent Activity. -/

abbrev LatestTable := List (String × List (ActivityType × Activity))

def table_lookup (t : LatestTable) (d : String) (ty : ActivityType) : Option Activity :=
  match dictGet t d with
  | some inner => dictGet inner ty
  | none => none

/-- Python `set.add` on a set represented as a duplicate-free list in
insertion order. -/
def set_add (l : List String) (x : String) : List String :=
  if x ∈ l then l else l ++ [x]

/-- The body of the `for activity in activities` loop of
`ActivityStream._process_newer_device_activities` (activity.py lines 76-94):
`setdefault` the outer entry, read the cached latest for the
`(device_id, activity_type)` key, skip the activity when the cached one is
strictly newer, otherwise write the activity and add its device id to the
updated set. -/
def process_one_activity (acc : LatestTable × List String) (a : Activity) :
    LatestTable × List String :=
  let t := dict_setdefault acc.1 a.device_id []
  let inner := (dictGet t a.device_id).getD []
  match dictGet inner a.activity_type with
  | some lastest =>
    if lastest.activity_start_time > a.activity_start_time then
      (t, acc.2)
    else
      (dictSet t a.device_id (dictSet inner a.activity_type a),
        set_add acc.2 a.device_id)
  | none =>
      (dictSet t a.device_id (dictSet inner a.activity_type a),
        set_add acc.2 a.device_id)

/-- `ActivityStream._process_newer_device_activities` (activity.py lines
74-94): fold the loop body over the incoming activities, starting from an
empty updated-device-id set.  The pair holds the body's two effects: the
mutated table and the `updated_device_ids` set the body builds locally.
The Python function ends without a `return` statement, so its Python
return value is `None`; the caller observes only the table mutation. -/
def process_newer_device_activities (t : LatestTable) (activities : List Activity) :
    LatestTable × List String :=
  activities.foldl process_one_activity (t, [])

/-- Observable result of one `ActivityStream._update_device_activities`
poll tick: the table as mutated so far, the device ids signalled so far
(one dispatcher send each), and whether a `TypeError` is propagating. -/
structure TickResult where
  table : LatestTable
  signals : List String
  type_error : Bool
deriving DecidableEq

/-- One iteration of the `for house_id in self._house_ids` loop of
`ActivityStream._update_device_activities` (activity.py lines 56-68):
fetch the house's activities from the API oracle and process them.
Because `_process_newer_device_activities` ends without a `return`
statement (lines 74-94), line 65 binds `updated_device_ids` to Python
`None`; the table mutation has already happened, but `len(updated_device_ids)`
at line 67 then raises `TypeError`, so `_signal_device_updates` (lines
70-72) is unreachable and the loop does not run past this house.  A
propagating error skips the remaining iterations. -/
def update_one_house (api : String → List Activity) (acc : TickResult)
    (h : String) : TickResult :=
  if acc.type_error then acc
  else
    { table := (process_newer_device_activities acc.table (api h)).1
      signals := acc.signals
      type_error := true }

/-- `ActivityStream._update_device_activities` (activity.py lines 54-68):
the loop over all house ids of one poll tick, starting with no signals and
no propagating error. -/
def update_device_activities_stream (house_ids : List String)
    (api : String → List Activity) (t : LatestTable) : TickResult :=
  house_ids.foldl (update_one_house api) ⟨t, [], false⟩

/-! Detail Cache (`__init__.py`, class AugustData): throttled batch refresh
of per-device detail snapshots, and the detail accessors. -/

/-- Outcome of one vendor detail call `api_call(access_token, device_id)`:
a detail object, a raised `RequestException`, or any other raised
exception. -/
inductive FetchResult where
  | fetched (detail : DeviceDetail)
  | requestError
  | unexpectedError
deriving DecidableEq

/-- The entry recorded for a device when its fetch does not abort the
batch: the detail on success, `None` on a request error. -/
def fetch_entry (r : FetchResult) : Option DeviceDetail :=
  match r with
  | FetchResult.fetched detail => some detail
  | _ => none

/-- The `for device in devices` loop of `AugustData._update_device_detail`
(`__init__.py` lines 444-465): build a local `detail_by_id` dict; a
`RequestException` for one device records `None` for it and continues; any
other exception re-raises, discarding the local dict as it propagates. -/
def update_device_detail_go (api_call : String → FetchResult) :
    List AugustDevice → List (String × Option DeviceDetail) →
    Except Unit (List (String × Option DeviceDetail))
  | [], detail_by_id => Except.ok detail_by_id
  | device :: rest, detail_by_id =>
    match api_call device.device_id with
    | FetchResult.fetched detail =>
        update_device_detail_go api_call rest
          (dictSet detail_by_id device.device_id (some detail))
    | FetchResult.requestError =>
        update_device_detail_go api_call rest
          (dictSet detail_by_id device.device_id none)
    | FetchResult.unexpectedError => Except.error ()

/-- `AugustData._update_device_detail` (`__init__.py` lines 444-465),
starting from an empty local dict. -/
def update_device_detail (api_call : String → FetchResult)
    (devices : List AugustDevice) : Except Unit (List (String × Option DeviceDetail)) :=
  update_device_detail_go api_call devices []

/-- The AugustData state the embedded detail-cache operations touch.  The
`*_fetch_batches` fields are observers counting network batch fetches. -/
structure AugustDataState where
  locks : List AugustDevice
  doorbells : List AugustDevice
  lock_detail_by_id : List (String × Option DeviceDetail)
  doorbell_detail_by_id : List (String × Option DeviceDetail)
  last_locks_detail_update : Option Nat
  last_doorbells_detail_update : Option Nat
  locks_fetch_batches : Nat
  doorbells_fetch_batches : Nat
deriving DecidableEq

/-- `AugustData._update_locks_detail` (`__init__.py` lines 439-442): assign
the freshly built dict to the cache; when the batch raised, the assignment
never runs and the exception propagates (second component `true`). -/
def update_locks_detail (api_call : String → FetchResult) (st : AugustDataState) :
    AugustDataState × Bool :=
  match update_device_detail api_call st.locks with
  | Except.ok m => ({ st with lock_detail_by_id := m }, false)
  | Except.error _ => (st, true)

/-- `AugustData._update_doorbells_detail` (`__init__.py` lines 411-414). -/
def update_doorbells_detail (api_call : String → FetchResult) (st : AugustDataState) :
    AugustDataState × Bool :=
  match update_device_detail api_call st.doorbells with
  | Except.ok m => ({ st with doorbell_detail_by_id := m }, false)
  | Except.error _ => (st, true)

/-- `MIN_TIME_BETWEEN_DETAIL_UPDATES` (`__init__.py` line 47), in seconds. -/
def MIN_TIME_BETWEEN_DETAIL_UPDATES : Nat := 1800

/-- Modelled from the spec: the `Throttle` decorator (homeassistant.util) is
not under src.  Per the spec (section 4.2 and the section 9 note, "an
explicit last-refreshed-at timestamp + minimum interval field checked
before each refresh"), a call inside the window is skipped and a call
outside runs the wrapped refresh and records its time. -/
def throttle_expired (last : Option Nat) (now : Nat) : Bool :=
  match last with
  | none => true
  | some t0 => decide (MIN_TIME_BETWEEN_DETAIL_UPDATES ≤ now - t0)

/-- `AugustData._async_update_locks_detail` (`__init__.py` lines 435-437):
`_update_locks_detail` behind the throttle gate.  A run counts one network
batch fetch; a throttled call performs no network I/O and leaves the state
unchanged. -/
def async_update_locks_detail (now : Nat) (api_call : String → FetchResult)
    (st : AugustDataState) : AugustDataState × Bool :=
  if throttle_expired st.last_locks_detail_update now then
    let r := update_locks_detail api_call st
    ({ r.1 with
        last_locks_detail_update := some now
        locks_fetch_batches := r.1.locks_fetch_batches + 1 }, r.2)
  else (st, false)

/-- `AugustData._async_update_doorbells_detail` (`__init__.py` lines
407-409). -/
def async_update_doorbells_detail (now : Nat) (api_call : String → FetchResult)
    (st : AugustDataState) : AugustDataState × Bool :=
  if throttle_expired st.last_doorbells_detail_update now then
    let r := update_doorbells_detail api_call st
    ({ r.1 with
        last_doorbells_detail_update := some now
        doorbells_fetch_batches := r.1.doorbells_fetch_batches + 1 }, r.2)
  else (st, false)

/-- The read in `AugustData.async_get_lock_detail` (`__init__.py` line 427):
`self._lock_detail_by_id[device_id]`, a subscript that raises `KeyError`
(`Except.error ()`) when the device id has no entry. -/
def lock_detail_get (m : List (String × Option DeviceDetail)) (device_id : String) :
    Except Unit (Option DeviceDetail) :=
  match dictGet m device_id with
  | some v => Except.ok v
  | none => Except.error ()

/-- The read in `AugustData.async_get_doorbell_detail` (`__init__.py` line
405): `self._doorbell_detail_by_id.get(device_id)`, which yields `None`
when the device id has no entry. -/
def doorbell_detail_get (m : List (String × Option DeviceDetail)) (device_id : String) :
    Option DeviceDetail :=
  match dictGet m device_id with
  | some v => v
  | none => none

/-- `AugustData.async_get_lock_detail` (`__init__.py` lines 424-427): the
throttled refresh followed by the subscript read. -/
def async_get_lock_detail (now : Nat) (api_call : String → FetchResult)
    (st : AugustDataState) (device_id : String) :
    AugustDataState × Except Unit (Option DeviceDetail) :=
  let r := async_update_locks_detail now api_call st
  (r.1, lock_detail_get r.1.lock_detail_by_id device_id)

/-- `AugustData.async_get_doorbell_detail` (`__init__.py` lines 402-405):
the throttled refresh followed by the `.get` read. -/
def async_get_doorbell_detail (now : Nat) (api_call : String → FetchResult)
    (st : AugustDataState) (device_id : String) :
    AugustDataState × Option DeviceDetail :=
  let r := async_update_doorbells_detail now api_call st
  (r.1, doorbell_detail_get r.1.doorbell_detail_by_id device_id)

/-! AugustData's own activity mapping and facade accessors
(`__init__.py` lines 360-400). -/

/-- `AugustData._update_device_activities` (`__init__.py` lines 385-400):
for each house, fetch its activities and store, for each device id seen in
the feed, the list of that device's activities in feed order. -/
def update_device_activities_data (house_ids : List String)
    (api : String → List Activity) (m : List (String × List Activity)) :
    List (String × List Activity) :=
  house_ids.foldl
    (fun acc h =>
      let activities := api h
      ((activities.map (fun a => a.device_id)).dedup).foldl
        (fun acc2 id =>
          dictSet acc2 id (activities.filter (fun a => decide (a.device_id = id))))
        acc)
    m

/-- `AugustData.async_get_device_activities` (`__init__.py` lines 360-368):
read the stored list for the device (default empty) and, when activity
types were requested, keep only activities of those types, preserving the
stored order.  The preceding throttled activity refresh is
`update_device_activities_data`. -/
def async_get_device_activities (m : List (String × List Activity))
    (device_id : String) (activity_types : List ActivityType) : List Activity :=
  let activities := (dictGet m device_id).getD []
  if activity_types.isEmpty then activities
  else activities.filter (fun a => decide (a.activity_type ∈ activity_types))

/-- `AugustData.async_get_latest_device_activity` (`__init__.py` lines
370-373): the first element of the filtered list, or `None` when empty. -/
def async_get_latest_device_activity (m : List (String × List Activity))
    (device_id : String) (activity_types : List ActivityType) : Option Activity :=
  (async_get_device_activities m device_id activity_types).head?

/-- Whether an activity survives the type filter of
`async_get_device_activities`: everything matches when no types were
requested. -/
def activity_matches (activity_types : List ActivityType) (a : Activity) : Bool :=
  activity_types.isEmpty || decide (a.activity_type ∈ activity_types)

/-! Lock/unlock facade and bridge-error translation (`__init__.py` lines
429-433 and 467-525). -/

/-- Whether `needle` is a contiguous run at the front of `hay`. -/
def str_starts : List Char → List Char → Bool
  | _, [] => true
  | [], _ :: _ => false
  | c :: cs, d :: ds => c == d && str_starts cs ds

/-- Whether `needle` occurs contiguously anywhere in `hay`. -/
def str_has_sub : List Char → List Char → Bool
  | [], n => n.isEmpty
  | c :: t, n => str_starts (c :: t) n || str_has_sub t n

/-- Substring containment on strings, used to state what an error message
embeds. -/
def contains_sub (hay needle : String) : Bool :=
  str_has_sub hay.data needle.data

/-- Outcome of the vendor lock/unlock call `func(*args, **kwargs)`: the
returned value or a raised `AugustApiHTTPError` carrying its message. -/
inductive ApiCallResult (α : Type) where
  | ok (v : α)
  | httpError (msg : String)
deriving DecidableEq

set_option linter.unusedVariables false in
/-- `_call_api_operation_that_requires_bridge` (`__init__.py` lines
515-525): on an `AugustApiHTTPError` raise `HomeAssistantError` with
message `device_name + ": " + str(err)`.  The `operation_name` parameter is
accepted and not used by the body. -/
def call_api_operation_that_requires_bridge {α : Type} (device_name : String)
    (operation_name : String) (func_result : ApiCallResult α) : Except String α :=
  match func_result with
  | ApiCallResult.ok v => Except.ok v
  | ApiCallResult.httpError err => Except.error (device_name ++ ": " ++ err)

/-- `AugustData.get_lock_name` (`__init__.py` lines 429-433): the
device_name of the first lock with the given device_id, `None` when no lock
matches (the loop falls through). -/
def get_lock_name (locks : List AugustDevice) (device_id : String) : Option String :=
  match locks with
  | [] => none
  | l :: rest =>
    if l.device_id = device_id then some l.device_name else get_lock_name rest device_id

/-- `AugustData.lock` (`__init__.py` lines 467-475): translate the vendor
call outcome through the bridge-error wrapper with the lock's display name
and operation name "lock".  `none` marks the out-of-scope case where
`get_lock_name` found no lock (the Python would then fail concatenating
`None`). -/
def data_lock (locks : List AugustDevice) (device_id : String)
    (api_result : ApiCallResult (List Activity)) :
    Option (Except String (List Activity)) :=
  (get_lock_name locks device_id).map
    (fun name => call_api_operation_that_requires_bridge name "lock" api_result)

/-- `AugustData.unlock` (`__init__.py` lines 477-485). -/
def data_unlock (locks : List AugustDevice) (device_id : String)
    (api_result : ApiCallResult (List Activity)) :
    Option (Except String (List Activity)) :=
  (get_lock_name locks device_id).map
    (fun name => call_api_operation_that_requires_bridge name "unlock" api_result)

/-! AugustLock entity (`lock.py`): the in-place merge of returned
activities into the referenced DeviceDetail.  Python object references are
made explicit: a heap of DeviceDetail objects indexed by `Nat`, the cache
mapping device ids to references, and the entity holding the reference it
obtained from its last read. -/

structure LockRefState where
  heap : List DeviceDetail
  lock_detail_refs_by_id : List (String × Option Nat)
  last_locks_detail_update : Option Nat
deriving DecidableEq

/-- Modelled from the spec: py-august's `update_lock_detail_from_activity`
helper (imported at lock.py line 7) is not under src.  Per spec sections 3
and 4.5, merging a lock-operation activity patches the implied
`lock_status` into the DeviceDetail; activities carrying no lock status
leave the fields kept here unchanged. -/
def update_lock_detail_from_activity (detail : DeviceDetail) (activity : Activity) :
    DeviceDetail :=
  match activity.activity_type, activity.lock_status with
  | ActivityType.lockOperation, some s => { detail with lock_status := s }
  | _, _ => detail

/-- Dereference a heap reference. -/
def heap_read (heap : List DeviceDetail) (r : Nat) : Option DeviceDetail :=
  heap[r]?

/-- Mutate the referenced object in place. -/
def merge_one (heap : List DeviceDetail) (r : Nat) (a : Activity) : List DeviceDetail :=
  match heap[r]? with
  | some d => heap.set r (update_lock_detail_from_activity d a)
  | none => heap

/-- `AugustLock._call_lock_operation` (lock.py lines 65-79): run the
lock/unlock command (its returned activities are given) and merge each
returned activity, in order, into the DeviceDetail object the entity
references (`self._lock_detail`).  The linked door-sensor entity refresh on
DoorOperation activities is platform glue outside the claims. -/
def call_lock_operation (st : LockRefState) (entity_ref : Nat)
    (activities : List Activity) : LockRefState :=
  { st with heap := activities.foldl (fun h a => merge_one h entity_ref a) st.heap }

/-- Reference-level view of `AugustData.async_get_lock_detail`
(`__init__.py` lines 424-427): the throttled refresh (skipped inside the
window) followed by the cache read and dereference.  The `KeyError` raised
on a missing id is modelled in the value-level embedding
(`lock_detail_get`); here missing entries read as `none`. -/
def async_get_lock_detail_ref (now : Nat) (refresh : LockRefState → LockRefState)
    (st : LockRefState) (device_id : String) : LockRefState × Option DeviceDetail :=
  let st' := if throttle_expired st.last_locks_detail_update now then refresh st else st
  (st',
    match dictGet st'.lock_detail_refs_by_id device_id with
    | some (some r) => heap_read st'.heap r
    | _ => none)

/-! Concrete fixtures used by witnesses and counterexamples. -/

def c1_old : Activity := ⟨"D1", ActivityType.doorOperation, 90, 91, none, none⟩

def c1_new : Activity := ⟨"D1", ActivityType.doorOperation, 100, 101, none, none⟩

def c1_table : LatestTable := [("D1", [(ActivityType.doorOperation, c1_old)])]

def c3_cached : Activity := ⟨"D1", ActivityType.doorOperation, 5, 6, none, none⟩

def c3_incoming : Activity := ⟨"D1", ActivityType.doorOperation, 5, 9, some "alice", none⟩

def c3_table : LatestTable := [("D1", [(ActivityType.doorOperation, c3_cached)])]

def c3_older : Activity := ⟨"D1", ActivityType.doorOperation, 2, 3, none, none⟩

def c2_a1 : Activity := ⟨"D1", ActivityType.doorOperation, 5, 6, none, none⟩

def c2_a2 : Activity := ⟨"D1", ActivityType.doorOperation, 6, 7, none, none⟩

def c2_api : String → List Activity :=
  fun h => if h = "H1" then [c2_a1] else if h = "H2" then [c2_a2] else []

def c6_detailA : DeviceDetail := ⟨"A", LockStatus.locked, true⟩

def c6_detailC : DeviceDetail := ⟨"C", LockStatus.unlocked, true⟩

def c6_devA : AugustDevice := ⟨"A", "Front Door", "H1"⟩

def c6_devB : AugustDevice := ⟨"B", "Back Door", "H1"⟩

def c6_devC : AugustDevice := ⟨"C", "Garage Door", "H2"⟩

def c6_devices : List AugustDevice := [c6_devA, c6_devB, c6_devC]

def c6_api : String → FetchResult :=
  fun id =>
    if id = "B" then FetchResult.requestError
    else if id = "A" then FetchResult.fetched c6_detailA
    else FetchResult.fetched c6_detailC

def c6_api_bad : String → FetchResult :=
  fun id => if id = "B" then FetchResult.unexpectedError else c6_api id

def c10_dev : AugustDevice := ⟨"L1", "Front Door", "H1"⟩

def c10_detail : DeviceDetail := ⟨"L1", LockStatus.locked, true⟩

def c10_st : AugustDataState :=
  ⟨[c10_dev], [], [("L1", some c10_detail)], [], none, none, 0, 0⟩

def c10_api : String → FetchResult := fun _ => FetchResult.unexpectedError

def c7_dev : AugustDevice := ⟨"L1", "Front Door", "H1"⟩

def c7_detail : DeviceDetail := ⟨"L1", LockStatus.locked, true⟩

def c7_st : AugustDataState := ⟨[c7_dev], [], [], [], none, none, 0, 0⟩

def c7_api : String → FetchResult := fun _ => FetchResult.fetched c7_detail

def c9_detail : DeviceDetail := ⟨"D", LockStatus.locked, true⟩

def c9_m : List (String × Option DeviceDetail) := [("D", some c9_detail)]

def c9_st : AugustDataState := ⟨[], [], [], [], some 0, some 0, 0, 0⟩

def c9_api : String → FetchResult := fun _ => FetchResult.requestError

def c4_detail : DeviceDetail := ⟨"D2", LockStatus.unlocked, true⟩

def c4_act : Activity :=
  ⟨"D2", ActivityType.lockOperation, 50, 51, some "bob", some LockStatus.locked⟩

def c4_st : LockRefState := ⟨[c4_detail], [("D2", some 0)], some 0⟩

def c5_lockdev : AugustDevice := ⟨"D3", "Front Door 3", "H1"⟩

def c8_a_old : Activity := ⟨"D1", ActivityType.doorOperation, 5, 6, none, none⟩

def c8_b_new : Activity := ⟨"D1", ActivityType.doorOperation, 10, 11, none, none⟩

def c8_api : String → List Activity := fun _ => [c8_a_old, c8_b_new]

def c8_m : List (String × List Activity) := update_device_activities_data ["H1"] c8_api []

/-! Dictionary lemmas. -/

theorem dictGet_dictSet_self {κ β : Type} [DecidableEq κ] (l : List (κ × β)) (k : κ) (v : β) :
    dictGet (dictSet l k v) k = some v := by
  induction l with
  | nil => simp [dictGet, dictSet]
  | cons p t ih =>
    obtain ⟨k', v'⟩ := p
    by_cases h : k' = k <;> simp [dictGet, dictSet, h, ih]

theorem dictGet_dictSet_ne {κ β : Type} [DecidableEq κ] (l : List (κ × β)) (k k' : κ) (v : β)
    (h : k' ≠ k) : dictGet (dictSet l k v) k' = dictGet l k' := by
  have h' : ¬k = k' := fun hh => h hh.symm
  induction l with
  | nil => simp [dictGet, dictSet, h']
  | cons p t ih =>
    obtain ⟨k₀, v₀⟩ := p
    by_cases h0 : k₀ = k
    · subst h0
      simp [dictGet, dictSet, h']
    · simp [dictGet, dictSet, h0, ih]

theorem dictGet_append {κ β : Type} [DecidableEq κ] (l m : List (κ × β)) (k : κ) :
    dictGet (l ++ m) k =
      match dictGet l k with
      | some v => some v
      | none => dictGet m k := by
  induction l with
  | nil => simp [dictGet]
  | cons p t ih =>
    obtain ⟨k', v⟩ := p
    by_cases h : k' = k <;> simp [dictGet, h, ih]

theorem dictGet_setdefault_self {κ β : Type} [DecidableEq κ] (l : List (κ × β)) (k : κ) (v : β) :
    dictGet (dict_setdefault l k v) k = some ((dictGet l k).getD v) := by
  unfold dict_setdefault
  rcases h : dictGet l k with _ | w
  · simp [dictGet_append, h, dictGet]
  · simp [h]

theorem dictGet_setdefault_ne {κ β : Type} [DecidableEq κ] (l : List (κ × β)) (k k' : κ)
    (v : β) (h : k' ≠ k) : dictGet (dict_setdefault l k v) k' = dictGet l k' := by
  have h' : ¬k = k' := fun hh => h hh.symm
  unfold dict_setdefault
  rcases h0 : dictGet l k with _ | w
  · rw [dictGet_append]
    rcases h1 : dictGet l k' with _ | w' <;> simp [h1, dictGet, h']
  · rfl

/-! Latest-Activity Table lemmas. -/

theorem table_lookup_some {t : LatestTable} {d : String}
    {inner : List (ActivityType × Activity)} (ty : ActivityType)
    (h : dictGet t d = some inner) : table_lookup t d ty = dictGet inner ty := by
  unfold table_lookup
  rw [h]

theorem table_lookup_none {t : LatestTable} {d : String} (ty : ActivityType)
    (h : dictGet t d = none) : table_lookup t d ty = none := by
  unfold table_lookup
  rw [h]

theorem table_lookup_setdefault_empty (t : LatestTable) (d₀ d : String) (ty : ActivityType) :
    table_lookup (dict_setdefault t d₀ []) d ty = table_lookup t d ty := by
  by_cases h : d = d₀
  · subst h
    rw [table_lookup_some ty (dictGet_setdefault_self t d [])]
    rcases h0 : dictGet t d with _ | inner
    · rw [table_lookup_none ty h0]
      simp [dictGet]
    · rw [table_lookup_some ty h0]
      simp
  · unfold table_lookup
    rw [dictGet_setdefault_ne _ _ _ _ h]

theorem dictGet_inner_setdefault (t : LatestTable) (d : String) (ty : ActivityType) :
    dictGet ((dictGet (dict_setdefault t d []) d).getD []) ty = table_lookup t d ty := by
  rcases h0 : dictGet t d with _ | inner
  · rw [table_lookup_none ty h0, dictGet_setdefault_self, h0]
    simp [dictGet]
  · rw [table_lookup_some ty h0, dictGet_setdefault_self, h0]
    simp

theorem table_lookup_write (t : LatestTable) (dev : String) (tyw : ActivityType) (a : Activity)
    (d : String) (ty : ActivityType) :
    table_lookup
        (dictSet (dict_setdefault t dev [])
          dev (dictSet ((dictGet (dict_setdefault t dev []) dev).getD []) tyw a)) d ty =
      if d = dev ∧ ty = tyw then some a else table_lookup t d ty := by
  by_cases hd : d = dev
  · subst hd
    rw [table_lookup_some ty (dictGet_dictSet_self (dict_setdefault t d []) d _)]
    by_cases hty : ty = tyw
    · subst hty
      simp [dictGet_dictSet_self]
    · rw [dictGet_dictSet_ne _ _ _ _ hty, dictGet_inner_setdefault]
      simp [hty]
  · unfold table_lookup
    rw [dictGet_dictSet_ne _ _ _ _ hd, dictGet_setdefault_ne _ _ _ _ hd]
    simp [hd]

/-- Normal form of the loop body: branch on the cached latest entry for the
incoming activity's `(device_id, activity_type)` key. -/
theorem process_one_activity_eq (acc : LatestTable × List String) (a : Activity) :
    process_one_activity acc a =
      match table_lookup acc.1 a.device_id a.activity_type with
      | some lastest =>
        if lastest.activity_start_time > a.activity_start_time then
          (dict_setdefault acc.1 a.device_id [], acc.2)
        else
          (dictSet (dict_setdefault acc.1 a.device_id []) a.device_id
            (dictSet ((dictGet (dict_setdefault acc.1 a.device_id []) a.device_id).getD [])
              a.activity_type a),
            set_add acc.2 a.device_id)
      | none =>
          (dictSet (dict_setdefault acc.1 a.device_id []) a.device_id
            (dictSet ((dictGet (dict_setdefault acc.1 a.device_id []) a.device_id).getD [])
              a.activity_type a),
            set_add acc.2 a.device_id) := by
  simp only [process_one_activity]
  rw [dictGet_inner_setdefault]

/-- Processing one activity either leaves a key's entry unchanged, or the
key is the activity's own and the entry becomes that activity, which is
then at least as recent as whatever was cached. -/
theorem table_lookup_process_one (acc : LatestTable × List String) (a : Activity)
    (d : String) (ty : ActivityType) :
    table_lookup (process_one_activity acc a).1 d ty = table_lookup acc.1 d ty ∨
      (d = a.device_id ∧ ty = a.activity_type ∧
        table_lookup (process_one_activity acc a).1 d ty = some a ∧
        ∀ e, table_lookup acc.1 d ty = some e →
          e.activity_start_time ≤ a.activity_start_time) := by
  rw [process_one_activity_eq]
  rcases h : table_lookup acc.1 a.device_id a.activity_type with _ | lastest
  · simp only
    rw [table_lookup_write]
    by_cases hk : d = a.device_id ∧ ty = a.activity_type
    · refine Or.inr ⟨hk.1, hk.2, by simp [hk], ?_⟩
      intro e he
      rw [hk.1, hk.2] at he
      rw [h] at he
      exact absurd he (by simp)
    · exact Or.inl (by simp [hk])
  · simp only
    by_cases hgt : lastest.activity_start_time > a.activity_start_time
    · rw [if_pos hgt]
      exact Or.inl (table_lookup_setdefault_empty _ _ _ _)
    · rw [if_neg hgt]
      rw [table_lookup_write]
      by_cases hk : d = a.device_id ∧ ty = a.activity_type
      · refine Or.inr ⟨hk.1, hk.2, by simp [hk], ?_⟩
        intro e he
        rw [hk.1, hk.2, h] at he
        cases he
        exact Nat.le_of_not_lt hgt
      · exact Or.inl (by simp [hk])

/-- The updated-device-id set after one step is the old set, possibly with
the activity's device id added. -/
theorem process_one_upd (acc : LatestTable × List String) (a : Activity) :
    (process_one_activity acc a).2 = acc.2 ∨
      (process_one_activity acc a).2 = set_add acc.2 a.device_id := by
  rw [process_one_activity_eq]
  rcases table_lookup acc.1 a.device_id a.activity_type with _ | lastest
  · exact Or.inr rfl
  · simp only
    split
    · exact Or.inl rfl
    · exact Or.inr rfl

theorem mem_set_add {l : List String} {x y : String} :
    x ∈ set_add l y ↔ x ∈ l ∨ x = y := by
  unfold set_add
  by_cases h : y ∈ l
  · rw [if_pos h]
    exact ⟨Or.inl, fun hc => hc.elim id fun hxy => hxy ▸ h⟩
  · rw [if_neg h]
    simp [List.mem_append]

theorem set_add_nodup {l : List String} {y : String} (h : l.Nodup) :
    (set_add l y).Nodup := by
  unfold set_add
  split
  · exact h
  · next hy => simpa [List.nodup_append] using ⟨h, fun hc => hy hc⟩

/-- Monotonicity of the table over a whole fold of the loop body. -/
theorem table_lookup_foldl_mono (as : List Activity) :
    ∀ (acc : LatestTable × List String) (d : String) (ty : ActivityType) (e : Activity),
      table_lookup acc.1 d ty = some e →
      ∃ e', table_lookup (as.foldl process_one_activity acc).1 d ty = some e' ∧
        e.activity_start_time ≤ e'.activity_start_time := by
  induction as with
  | nil => exact fun acc d ty e h => ⟨e, h, Nat.le_refl _⟩
  | cons a rest ih =>
    intro acc d ty e h
    rw [List.foldl_cons]
    rcases table_lookup_process_one acc a d ty with heq | ⟨_, _, heq, hle⟩
    · exact ih _ d ty e (heq.trans h)
    · obtain ⟨e', h1, h2⟩ := ih (process_one_activity acc a) d ty a heq
      exact ⟨e', h1, Nat.le_trans (hle e h) h2⟩

/-- If every activity of device `d` in the batch is strictly older than the
entry the table held for its key when the fold started, then the fold
neither adds `d` to the updated set nor changes any of `d`'s entries. -/
theorem foldl_no_update_for_strictly_older :
    ∀ (as : List Activity) (t₀ : LatestTable) (d : String),
      (∀ a ∈ as, a.device_id = d →
        ∃ e, table_lookup t₀ d a.activity_type = some e ∧
          a.activity_start_time < e.activity_start_time) →
      ∀ (acc : LatestTable × List String),
        d ∉ acc.2 → (∀ ty, table_lookup acc.1 d ty = table_lookup t₀ d ty) →
        d ∉ (as.foldl process_one_activity acc).2 ∧
          ∀ ty, table_lookup (as.foldl process_one_activity acc).1 d ty =
            table_lookup t₀ d ty := by
  intro as
  induction as with
  | nil => exact fun t₀ d _ acc h1 h2 => ⟨h1, h2⟩
  | cons a rest ih =>
    intro t₀ d h acc h1 h2
    rw [List.foldl_cons]
    have hrest : ∀ b ∈ rest, b.device_id = d →
        ∃ e, table_lookup t₀ d b.activity_type = some e ∧
          b.activity_start_time < e.activity_start_time :=
      fun b hb => h b (List.mem_cons_of_mem _ hb)
    by_cases hdev : a.device_id = d
    · obtain ⟨e, he, hlt⟩ := h a (List.mem_cons_self _ _) hdev
      have hsk : process_one_activity acc a = (dict_setdefault acc.1 a.device_id [], acc.2) := by
        rw [process_one_activity_eq]
        have hl : table_lookup acc.1 a.device_id a.activity_type = some e := by
          rw [hdev, h2]
          exact he
        rw [hl]
        simp [hlt]
      rw [hsk]
      exact ih t₀ d hrest _ h1
        (fun ty => (table_lookup_setdefault_empty _ _ _ _).trans (h2 ty))
    · have htab : ∀ ty, table_lookup (process_one_activity acc a).1 d ty =
          table_lookup acc.1 d ty := by
        intro ty
        rcases table_lookup_process_one acc a d ty with heq | ⟨hd', _, _, _⟩
        · exact heq
        · exact absurd hd'.symm hdev
      have hupd : d ∉ (process_one_activity acc a).2 := by
        rcases process_one_upd acc a with he | he
        · rw [he]
          exact h1
        · rw [he]
          intro hc
          rcases mem_set_add.mp hc with hc1 | hc2
          · exact h1 hc1
          · exact hdev hc2.symm
      exact ih t₀ d hrest _ hupd (fun ty => (htab ty).trans (h2 ty))

/-- The updated-device-id set built by the fold stays duplicate-free. -/
theorem foldl_upd_nodup (as : List Activity) :
    ∀ acc : LatestTable × List String,
      acc.2.Nodup → (as.foldl process_one_activity acc).2.Nodup := by
  induction as with
  | nil => exact fun acc h => h
  | cons a rest ih =>
    intro acc h
    rw [List.foldl_cons]
    apply ih
    rcases process_one_upd acc a with he | he
    · rw [he]
      exact h
    · rw [he]
      exact set_add_nodup h

/-- Once a TypeError is propagating, the remaining house iterations never
run: the fold is frozen. -/
theorem foldl_update_one_house_frozen (api : String → List Activity) :
    ∀ (hs : List String) (acc : TickResult), acc.type_error = true →
      hs.foldl (update_one_house api) acc = acc := by
  intro hs
  induction hs with
  | nil => exact fun acc _ => rfl
  | cons h rest ih =>
    intro acc he
    rw [List.foldl_cons]
    have h1 : update_one_house api acc h = acc := by
      unfold update_one_house
      rw [he]
      simp
    rw [h1]
    exact ih acc he

/-- C2: evaluation of the activity poll tick.  `_process_newer_device_activities`
ends without a `return` statement, so `updated_device_ids` is `None` at
activity.py line 65 and `len(updated_device_ids)` at line 67 raises
`TypeError`: the tick emits no notification whatsoever (for any houses,
feeds and table), it raises `TypeError` as soon as there is at least one
house, and only the first house's activities ever reach the table — the
claimed coalesced per-device notification never happens. -/
theorem august_tick_aborts_without_signalling (house_ids : List String)
    (api : String → List Activity) (t : LatestTable) :
    (update_device_activities_stream house_ids api t).signals = [] ∧
    (update_device_activities_stream house_ids api t).type_error =
      !house_ids.isEmpty ∧
    ∀ h rest, house_ids = h :: rest →
      (update_device_activities_stream house_ids api t).table =
        (process_newer_device_activities t (api h)).1 := by
  cases house_ids with
  | nil => exact ⟨rfl, rfl, fun h rest heq => by cases heq⟩
  | cons h rest =>
    have hstep : update_one_house api ⟨t, [], false⟩ h =
        ⟨(process_newer_device_activities t (api h)).1, [], true⟩ := rfl
    have hfold : update_device_activities_stream (h :: rest) api t =
        ⟨(process_newer_device_activities t (api h)).1, [], true⟩ := by
      unfold update_device_activities_stream
      rw [List.foldl_cons, hstep]
      exact foldl_update_one_house_frozen api rest _ rfl
    rw [hfold]
    refine ⟨rfl, rfl, ?_⟩
    intro h' rest' heq
    cases heq
    rfl

theorem august_tick_aborts_without_signalling_witness :
    (update_device_activities_stream ["H1"] c2_api []).signals = [] ∧
    (update_device_activities_stream ["H1"] c2_api []).type_error = true ∧
    (update_device_activities_stream ["H1"] c2_api []).table =
      (process_newer_device_activities [] (c2_api "H1")).1 ∧
    (process_newer_device_activities [] (c2_api "H1")).2 = ["D1"] := by
  have h := august_tick_aborts_without_signalling ["H1"] c2_api []
  refine ⟨h.1, ?_, h.2.2 "H1" [] rfl, by decide⟩
  rw [h.2.1]
  rfl

/-- C1: for every sequence of activities processed by the Activity Stream and
every `(device_id, activity_type)` key, the cached entry in the
Latest-Activity Table is replaced, never regressed: whatever entry the table
holds before a batch, after processing the batch the key still holds an
entry whose `activity_start_time` is at least as large, for every arrival
order of the batch. -/
theorem latest_activity_table_never_regresses (t : LatestTable) (as : List Activity)
    (d : String) (ty : ActivityType) (e : Activity)
    (h : table_lookup t d ty = some e) :
    ∃ e', table_lookup (process_newer_device_activities t as).1 d ty = some e' ∧
      e.activity_start_time ≤ e'.activity_start_time :=
  table_lookup_foldl_mono as (t, []) d ty e h




theorem latest_activity_table_never_regresses_witness :
    c1_old.activity_start_time ≤
      ((table_lookup (process_newer_device_activities c1_table [c1_new]).1 "D1"
        ActivityType.doorOperation).getD c1_old).activity_start_time := by
  obtain ⟨e', h1, h2⟩ := latest_activity_table_never_regresses c1_table [c1_new] "D1"
    ActivityType.doorOperation c1_old (by decide)
  rw [h1]
  exact h2

/-- C3 counterexample: an incoming activity whose `activity_start_time`
equals the cached entry's (hence "not newer") is not discarded: the code
skips only strictly older activities, so the cached entry is replaced by
the incoming record and the device id is marked updated. -/
theorem equal_start_time_not_discarded :
    c3_incoming.activity_start_time = c3_cached.activity_start_time ∧
    c3_incoming ≠ c3_cached ∧
    table_lookup c3_table "D1" ActivityType.doorOperation = some c3_cached ∧
    (process_newer_device_activities c3_table [c3_incoming]).2 = ["D1"] ∧
    table_lookup (process_newer_device_activities c3_table [c3_incoming]).1 "D1"
      ActivityType.doorOperation = some c3_incoming := by
  decide

/-- C3 (amended): an incoming activity strictly older than the cached entry
for its `(device_id, activity_type)` key is discarded, leaving every cached
entry and the updated-device-id set unchanged; an incoming activity whose
start time is at least the cached one (strictly newer, equal, or no cached
entry) replaces the cached entry, leaves all other keys unchanged, and marks
its device id as updated. -/
theorem process_activity_discard_or_replace (t : LatestTable) (a : Activity) :
    (∀ e, table_lookup t a.device_id a.activity_type = some e →
        a.activity_start_time < e.activity_start_time →
        (∀ d ty, table_lookup (process_newer_device_activities t [a]).1 d ty =
            table_lookup t d ty) ∧
          (process_newer_device_activities t [a]).2 = []) ∧
    ((∀ e, table_lookup t a.device_id a.activity_type = some e →
        e.activity_start_time ≤ a.activity_start_time) →
      table_lookup (process_newer_device_activities t [a]).1 a.device_id
          a.activity_type = some a ∧
        (∀ d ty, ¬(d = a.device_id ∧ ty = a.activity_type) →
          table_lookup (process_newer_device_activities t [a]).1 d ty =
            table_lookup t d ty) ∧
        (process_newer_device_activities t [a]).2 = [a.device_id]) := by
  have hnf : process_newer_device_activities t [a] = process_one_activity (t, []) a := rfl
  constructor
  · intro e he hlt
    have hsk : process_one_activity (t, []) a = (dict_setdefault t a.device_id [], []) := by
      rw [process_one_activity_eq]
      rw [he]
      simp [hlt]
    rw [hnf, hsk]
    exact ⟨fun d ty => table_lookup_setdefault_empty _ _ _ _, rfl⟩
  · intro hle
    have hwr : process_one_activity (t, []) a =
        (dictSet (dict_setdefault t a.device_id []) a.device_id
          (dictSet ((dictGet (dict_setdefault t a.device_id []) a.device_id).getD [])
            a.activity_type a),
          set_add [] a.device_id) := by
      rw [process_one_activity_eq]
      rcases he : table_lookup t a.device_id a.activity_type with _ | e
      · rfl
      · have := hle e he
        simp [Nat.not_lt.mpr this]
    rw [hnf, hwr]
    refine ⟨?_, ?_, ?_⟩
    · rw [table_lookup_write]
      simp
    · intro d ty hne
      rw [table_lookup_write, if_neg hne]
    · rfl





theorem process_activity_discard_or_replace_witness :
    (table_lookup (process_newer_device_activities c3_table [c3_older]).1 "D1"
        ActivityType.doorOperation = table_lookup c3_table "D1" ActivityType.doorOperation ∧
      (process_newer_device_activities c3_table [c3_older]).2 = []) ∧
    (table_lookup (process_newer_device_activities c3_table [c3_incoming]).1 "D1"
        ActivityType.doorOperation = some c3_incoming ∧
      (process_newer_device_activities c3_table [c3_incoming]).2 = ["D1"]) := by
  have h1 := (process_activity_discard_or_replace c3_table c3_older).1 c3_cached
    (by decide) (by decide)
  have h2 := (process_activity_discard_or_replace c3_table c3_incoming).2
    (by decide)
  exact ⟨⟨h1.1 "D1" ActivityType.doorOperation, h1.2⟩, ⟨h2.1, h2.2.2⟩⟩

/-! Detail Cache lemmas. -/

theorem dictSet_absent {κ β : Type} [DecidableEq κ] (l : List (κ × β)) (k : κ) (v : β)
    (h : dictGet l k = none) : dictSet l k v = l ++ [(k, v)] := by
  induction l with
  | nil => rfl
  | cons p t ih =>
    obtain ⟨k₀, v₀⟩ := p
    by_cases h0 : k₀ = k
    · simp [dictGet, h0] at h
    · have h' : dictGet t k = none := by simpa [dictGet, h0] using h
      simp [dictSet, h0, ih h']

theorem countP_not_eq {α : Type} (p : α → Bool) (l : List α) :
    l.countP (fun a => !p a) = l.length - l.countP p := by
  induction l with
  | nil => rfl
  | cons a t ih =>
    have hle := List.countP_le_length p (l := t)
    by_cases h : p a
    · simp [List.countP_cons, h, ih]
    · simp [List.countP_cons, h, ih]
      omega

theorem countP_eq_single {α : Type} [DecidableEq α] (l : List α) (x : α)
    (hnd : l.Nodup) (hm : x ∈ l) : l.countP (fun a => decide (a = x)) = 1 := by
  induction l with
  | nil => cases hm
  | cons y rest ih =>
    rcases List.mem_cons.mp hm with h1 | h2
    · subst h1
      have h0 : rest.countP (fun a => decide (a = x)) = 0 :=
        List.countP_eq_zero.mpr fun a ha => by
          simp only [decide_eq_true_eq]
          intro he
          subst he
          exact (List.nodup_cons.mp hnd).1 ha
      simp [List.countP_cons, h0]
    · have hy : ¬y = x := fun he => (List.nodup_cons.mp hnd).1 (he ▸ h2)
      simp [List.countP_cons, hy, ih (List.nodup_cons.mp hnd).2 h2]

theorem dictGet_map_entry {β : Type} (g : AugustDevice → β) :
    ∀ (l : List AugustDevice) (d : AugustDevice), d ∈ l →
      (l.map (fun x => x.device_id)).Nodup →
      dictGet (l.map (fun x => (x.device_id, g x))) d.device_id = some (g d) := by
  intro l
  induction l with
  | nil => intro d hd; cases hd
  | cons x rest ih =>
    intro d hd hnodup
    simp only [List.map_cons] at hnodup
    by_cases hx : x.device_id = d.device_id
    · have hdx : d = x := by
        rcases List.mem_cons.mp hd with h1 | h2
        · exact h1
        · exfalso
          have hmm : d.device_id ∈ rest.map (fun x => x.device_id) :=
            List.mem_map_of_mem _ h2
          rw [← hx] at hmm
          exact (List.nodup_cons.mp hnodup).1 hmm
      subst hdx
      simp [dictGet, hx]
    · have hd' : d ∈ rest := by
        rcases List.mem_cons.mp hd with h1 | h2
        · exact absurd (by rw [h1] : x.device_id = d.device_id) hx
        · exact h2
      simp only [List.map_cons, dictGet, hx, if_false]
      exact ih d hd' (List.nodup_cons.mp hnodup).2

/-- With no unexpected error among the devices, the batch loop returns the
accumulated dict extended with one entry per device, in device order. -/
theorem update_device_detail_go_ok (api : String → FetchResult) :
    ∀ (devices : List AugustDevice) (acc : List (String × Option DeviceDetail)),
      (∀ d ∈ devices, api d.device_id ≠ FetchResult.unexpectedError) →
      (∀ d ∈ devices, dictGet acc d.device_id = none) →
      (devices.map (fun x => x.device_id)).Nodup →
      update_device_detail_go api devices acc =
        Except.ok (acc ++ devices.map
          (fun d => (d.device_id, fetch_entry (api d.device_id)))) := by
  intro devices
  induction devices with
  | nil => intro acc _ _ _; simp [update_device_detail_go]
  | cons dev rest ih =>
    intro acc hno hacc hnodup
    simp only [List.map_cons] at hnodup
    have hhead := (List.nodup_cons.mp hnodup).1
    have htail := (List.nodup_cons.mp hnodup).2
    have hno' : ∀ d ∈ rest, api d.device_id ≠ FetchResult.unexpectedError :=
      fun d hd => hno d (List.mem_cons_of_mem _ hd)
    have hne : ∀ d ∈ rest, dev.device_id ≠ d.device_id :=
      fun d hd he => hhead (he ▸ List.mem_map_of_mem _ hd)
    have hacc' : ∀ (w : Option DeviceDetail), ∀ d ∈ rest,
        dictGet (acc ++ [(dev.device_id, w)]) d.device_id = none := by
      intro w d hd
      rw [dictGet_append, hacc d (List.mem_cons_of_mem _ hd)]
      simp [dictGet, hne d hd]
    rcases hapi : api dev.device_id with detail | _ | _
    · simp only [update_device_detail_go, hapi]
      rw [dictSet_absent _ _ _ (hacc dev (List.mem_cons_self _ _)),
        ih _ hno' (hacc' _) htail]
      simp [fetch_entry, hapi]
    · simp only [update_device_detail_go, hapi]
      rw [dictSet_absent _ _ _ (hacc dev (List.mem_cons_self _ _)),
        ih _ hno' (hacc' _) htail]
      simp [fetch_entry, hapi]
    · exact absurd hapi (hno dev (List.mem_cons_self _ _))

/-- Any unexpected error among the devices aborts the whole batch. -/
theorem update_device_detail_go_error (api : String → FetchResult) :
    ∀ (devices : List AugustDevice) (acc : List (String × Option DeviceDetail)),
      (∃ d ∈ devices, api d.device_id = FetchResult.unexpectedError) →
      update_device_detail_go api devices acc = Except.error () := by
  intro devices
  induction devices with
  | nil =>
    intro acc h
    obtain ⟨d, hd, _⟩ := h
    exact absurd hd (List.not_mem_nil d)
  | cons dev rest ih =>
    intro acc h
    rcases hapi : api dev.device_id with detail | _ | _
    · obtain ⟨d, hd, hde⟩ := h
      have hd' : d ∈ rest := by
        rcases List.mem_cons.mp hd with h1 | h2
        · subst h1
          rw [hapi] at hde
          cases hde
        · exact h2
      simp only [update_device_detail_go, hapi]
      exact ih _ ⟨d, hd', hde⟩
    · obtain ⟨d, hd, hde⟩ := h
      have hd' : d ∈ rest := by
        rcases List.mem_cons.mp hd with h1 | h2
        · subst h1
          rw [hapi] at hde
          cases hde
        · exact h2
      simp only [update_device_detail_go, hapi]
      exact ih _ ⟨d, hd', hde⟩
    · simp only [update_device_detail_go, hapi]

/-- C6: in a batch over N devices with pairwise distinct ids, a request
error on exactly one device is caught individually: the refresh still
succeeds, records `None` for the failing device and a detail for each of
the other N-1 devices (exactly 1 null entry and N-1 successful entries);
whereas any unexpected (non-request) exception aborts the whole refresh. -/
theorem per_device_request_error_isolated (api : String → FetchResult)
    (devices : List AugustDevice) (dev : AugustDevice)
    (hnodup : (devices.map (fun x => x.device_id)).Nodup)
    (hmem : dev ∈ devices)
    (hfail : api dev.device_id = FetchResult.requestError)
    (hok : ∀ d ∈ devices, d.device_id ≠ dev.device_id →
      ∃ det, api d.device_id = FetchResult.fetched det) :
    (∃ m, update_device_detail api devices = Except.ok m ∧
      m.length = devices.length ∧
      m.countP (fun p => decide (p.2 = none)) = 1 ∧
      m.countP (fun p => decide (p.2 ≠ none)) = devices.length - 1 ∧
      dictGet m dev.device_id = some none ∧
      ∀ d ∈ devices, d.device_id ≠ dev.device_id →
        ∃ det, dictGet m d.device_id = some (some det)) ∧
    ∀ api2 : String → FetchResult,
      (∃ d ∈ devices, api2 d.device_id = FetchResult.unexpectedError) →
      update_device_detail api2 devices = Except.error () := by
  constructor
  · have hinj := List.inj_on_of_nodup_map hnodup
    have hnd : devices.Nodup := List.Nodup.of_map _ hnodup
    have hno : ∀ d ∈ devices, api d.device_id ≠ FetchResult.unexpectedError := by
      intro d hd
      by_cases hid : d.device_id = dev.device_id
      · rw [hid, hfail]
        intro hc
        cases hc
      · obtain ⟨det, hdet⟩ := hok d hd hid
        rw [hdet]
        intro hc
        cases hc
    have hgo := update_device_detail_go_ok api devices []
      hno (fun d _ => rfl) hnodup
    have hcnone : List.countP (fun p : String × Option DeviceDetail => decide (p.2 = none))
        (devices.map (fun d => (d.device_id, fetch_entry (api d.device_id)))) = 1 := by
      rw [List.countP_map]
      refine (List.countP_congr ?_).trans (countP_eq_single devices dev hnd hmem)
      intro d hd
      simp only [Function.comp_apply, decide_eq_true_eq]
      constructor
      · intro hnone
        by_cases hid : d.device_id = dev.device_id
        · exact hinj hd hmem hid
        · obtain ⟨det, hdet⟩ := hok d hd hid
          rw [hdet] at hnone
          cases hnone
      · intro hde
        subst hde
        rw [hfail]
        rfl
    have hcsome : List.countP (fun p : String × Option DeviceDetail => decide (p.2 ≠ none))
        (devices.map (fun d => (d.device_id, fetch_entry (api d.device_id)))) =
          devices.length - 1 := by
      have heq2 : List.countP (fun p : String × Option DeviceDetail => decide (p.2 ≠ none))
          (devices.map (fun d => (d.device_id, fetch_entry (api d.device_id)))) =
            List.countP (fun p : String × Option DeviceDetail => !decide (p.2 = none))
              (devices.map (fun d => (d.device_id, fetch_entry (api d.device_id)))) := by
        apply List.countP_congr
        intro a _
        cases h2 : a.2 <;> simp [h2]
      rw [heq2, countP_not_eq, List.length_map, hcnone]
    refine ⟨devices.map (fun d => (d.device_id, fetch_entry (api d.device_id))), by
        unfold update_device_detail
        rw [hgo]
        simp, by simp, hcnone, hcsome, ?_, ?_⟩
    · rw [dictGet_map_entry _ devices dev hmem hnodup, hfail]
      rfl
    · intro d hd hid
      obtain ⟨det, hdet⟩ := hok d hd hid
      refine ⟨det, ?_⟩
      rw [dictGet_map_entry _ devices d hd hnodup, hdet]
      rfl
  · intro api2 h
    exact update_device_detail_go_error api2 devices [] h

theorem per_device_request_error_isolated_witness :
    ((update_device_detail c6_api c6_devices).toOption.getD []).countP
        (fun p => decide (p.2 = none)) = 1 ∧
    ((update_device_detail c6_api c6_devices).toOption.getD []).countP
        (fun p => decide (p.2 ≠ none)) = c6_devices.length - 1 ∧
    dictGet ((update_device_detail c6_api c6_devices).toOption.getD [])
      c6_devB.device_id = some none ∧
    update_device_detail c6_api_bad c6_devices = Except.error () := by
  obtain ⟨⟨m, h1, _, hc1, hc2, hB, _⟩, herr⟩ :=
    per_device_request_error_isolated c6_api c6_devices c6_devB
      (by decide) (by decide) (by decide)
      (by
        intro d hd hne
        fin_cases hd
        · exact ⟨c6_detailA, by decide⟩
        · exact absurd rfl hne
        · exact ⟨c6_detailC, by decide⟩)
  rw [h1]
  exact ⟨hc1, hc2, hB, herr c6_api_bad ⟨c6_devB, by decide, by decide⟩⟩

/-- C10: an unexpected (non-request) exception during the lock detail batch
propagates before the local dict is assigned: the previously cached
`_lock_detail_by_id` mapping — indeed the whole state — is left unchanged,
so the refresh is atomic with respect to unexpected errors. -/
theorem unexpected_error_leaves_cache_unchanged (api : String → FetchResult)
    (st : AugustDataState) (dev : AugustDevice) (hmem : dev ∈ st.locks)
    (hbad : api dev.device_id = FetchResult.unexpectedError) :
    update_locks_detail api st = (st, true) := by
  unfold update_locks_detail update_device_detail
  rw [update_device_detail_go_error api st.locks [] ⟨dev, hmem, hbad⟩]

theorem unexpected_error_leaves_cache_unchanged_witness :
    update_locks_detail c10_api c10_st = (c10_st, true) :=
  unexpected_error_leaves_cache_unchanged c10_api c10_st c10_dev
    (by decide) (by decide)

/-! Throttle lemmas. -/

theorem update_locks_detail_fields (api_call : String → FetchResult) (st : AugustDataState) :
    (update_locks_detail api_call st).1.last_locks_detail_update =
        st.last_locks_detail_update ∧
      (update_locks_detail api_call st).1.locks_fetch_batches = st.locks_fetch_batches := by
  unfold update_locks_detail
  split
  · exact ⟨rfl, rfl⟩
  · exact ⟨rfl, rfl⟩

theorem update_doorbells_detail_fields (api_call : String → FetchResult)
    (st : AugustDataState) :
    (update_doorbells_detail api_call st).1.last_doorbells_detail_update =
        st.last_doorbells_detail_update ∧
      (update_doorbells_detail api_call st).1.doorbells_fetch_batches =
        st.doorbells_fetch_batches := by
  unfold update_doorbells_detail
  split
  · exact ⟨rfl, rfl⟩
  · exact ⟨rfl, rfl⟩

theorem async_update_locks_run (now : Nat) (api_call : String → FetchResult)
    (st : AugustDataState) (h : throttle_expired st.last_locks_detail_update now = true) :
    async_update_locks_detail now api_call st =
      ({ (update_locks_detail api_call st).1 with
          last_locks_detail_update := some now
          locks_fetch_batches := (update_locks_detail api_call st).1.locks_fetch_batches + 1 },
        (update_locks_detail api_call st).2) := by
  unfold async_update_locks_detail
  simp [h]

theorem async_update_locks_skip (now : Nat) (api_call : String → FetchResult)
    (st : AugustDataState) (h : throttle_expired st.last_locks_detail_update now = false) :
    async_update_locks_detail now api_call st = (st, false) := by
  unfold async_update_locks_detail
  simp [h]

theorem async_update_doorbells_run (now : Nat) (api_call : String → FetchResult)
    (st : AugustDataState)
    (h : throttle_expired st.last_doorbells_detail_update now = true) :
    async_update_doorbells_detail now api_call st =
      ({ (update_doorbells_detail api_call st).1 with
          last_doorbells_detail_update := some now
          doorbells_fetch_batches :=
            (update_doorbells_detail api_call st).1.doorbells_fetch_batches + 1 },
        (update_doorbells_detail api_call st).2) := by
  unfold async_update_doorbells_detail
  simp [h]

theorem async_update_doorbells_skip (now : Nat) (api_call : String → FetchResult)
    (st : AugustDataState)
    (h : throttle_expired st.last_doorbells_detail_update now = false) :
    async_update_doorbells_detail now api_call st = (st, false) := by
  unfold async_update_doorbells_detail
  simp [h]

theorem throttle_expired_none (now : Nat) : throttle_expired none now = true := rfl

theorem throttle_expired_within (t0 now : Nat)
    (h : now < t0 + MIN_TIME_BETWEEN_DETAIL_UPDATES) :
    throttle_expired (some t0) now = false := by
  unfold throttle_expired
  simp only [decide_eq_false_iff_not]
  unfold MIN_TIME_BETWEEN_DETAIL_UPDATES at h ⊢
  omega

theorem throttle_expired_after (t0 now : Nat)
    (h : t0 + MIN_TIME_BETWEEN_DETAIL_UPDATES ≤ now) :
    throttle_expired (some t0) now = true := by
  unfold throttle_expired
  simp only [decide_eq_true_eq]
  unfold MIN_TIME_BETWEEN_DETAIL_UPDATES at h ⊢
  omega

/-- C7: starting with no recorded refresh, a detail refresh at `t1` performs
one network batch fetch; a second call at `t2` inside the minimum interval
performs no network I/O and leaves the state — including the cached
mapping — unchanged (exactly one batch fetch across the two calls); a
third call at `t3` past the interval performs a second batch fetch.  Both
the lock and the doorbell refresh families behave this way. -/
theorem detail_refresh_throttled (api_call : String → FetchResult) (st : AugustDataState)
    (t1 t2 t3 : Nat)
    (hL : st.last_locks_detail_update = none)
    (hD : st.last_doorbells_detail_update = none)
    (h2w : t2 < t1 + MIN_TIME_BETWEEN_DETAIL_UPDATES)
    (h3 : t1 + MIN_TIME_BETWEEN_DETAIL_UPDATES ≤ t3) :
    ((async_update_locks_detail t1 api_call st).1.locks_fetch_batches =
        st.locks_fetch_batches + 1 ∧
      async_update_locks_detail t2 api_call (async_update_locks_detail t1 api_call st).1 =
        ((async_update_locks_detail t1 api_call st).1, false) ∧
      (async_update_locks_detail t3 api_call
          (async_update_locks_detail t1 api_call st).1).1.locks_fetch_batches =
        st.locks_fetch_batches + 2) ∧
    ((async_update_doorbells_detail t1 api_call st).1.doorbells_fetch_batches =
        st.doorbells_fetch_batches + 1 ∧
      async_update_doorbells_detail t2 api_call
          (async_update_doorbells_detail t1 api_call st).1 =
        ((async_update_doorbells_detail t1 api_call st).1, false) ∧
      (async_update_doorbells_detail t3 api_call
          (async_update_doorbells_detail t1 api_call st).1).1.doorbells_fetch_batches =
        st.doorbells_fetch_batches + 2) := by
  constructor
  · have e1 : throttle_expired st.last_locks_detail_update t1 = true := by
      rw [hL]
      exact throttle_expired_none t1
    have hrun1 := async_update_locks_run t1 api_call st e1
    have hlast1 : (async_update_locks_detail t1 api_call st).1.last_locks_detail_update =
        some t1 := by
      rw [hrun1]
    have hfetch1 : (async_update_locks_detail t1 api_call st).1.locks_fetch_batches =
        st.locks_fetch_batches + 1 := by
      rw [hrun1]
      show (update_locks_detail api_call st).1.locks_fetch_batches + 1 =
        st.locks_fetch_batches + 1
      rw [(update_locks_detail_fields api_call st).2]
    have e2 : throttle_expired
        (async_update_locks_detail t1 api_call st).1.last_locks_detail_update t2 = false := by
      rw [hlast1]
      exact throttle_expired_within t1 t2 h2w
    have e3 : throttle_expired
        (async_update_locks_detail t1 api_call st).1.last_locks_detail_update t3 = true := by
      rw [hlast1]
      exact throttle_expired_after t1 t3 h3
    refine ⟨hfetch1, async_update_locks_skip t2 api_call _ e2, ?_⟩
    rw [async_update_locks_run t3 api_call _ e3]
    show (update_locks_detail api_call
        (async_update_locks_detail t1 api_call st).1).1.locks_fetch_batches + 1 =
      st.locks_fetch_batches + 2
    rw [(update_locks_detail_fields api_call _).2, hfetch1]
  · have e1 : throttle_expired st.last_doorbells_detail_update t1 = true := by
      rw [hD]
      exact throttle_expired_none t1
    have hrun1 := async_update_doorbells_run t1 api_call st e1
    have hlast1 : (async_update_doorbells_detail t1 api_call st).1.last_doorbells_detail_update =
        some t1 := by
      rw [hrun1]
    have hfetch1 : (async_update_doorbells_detail t1 api_call st).1.doorbells_fetch_batches =
        st.doorbells_fetch_batches + 1 := by
      rw [hrun1]
      show (update_doorbells_detail api_call st).1.doorbells_fetch_batches + 1 =
        st.doorbells_fetch_batches + 1
      rw [(update_doorbells_detail_fields api_call st).2]
    have e2 : throttle_expired
        (async_update_doorbells_detail t1 api_call st).1.last_doorbells_detail_update t2 =
        false := by
      rw [hlast1]
      exact throttle_expired_within t1 t2 h2w
    have e3 : throttle_expired
        (async_update_doorbells_detail t1 api_call st).1.last_doorbells_detail_update t3 =
        true := by
      rw [hlast1]
      exact throttle_expired_after t1 t3 h3
    refine ⟨hfetch1, async_update_doorbells_skip t2 api_call _ e2, ?_⟩
    rw [async_update_doorbells_run t3 api_call _ e3]
    show (update_doorbells_detail api_call
        (async_update_doorbells_detail t1 api_call st).1).1.doorbells_fetch_batches + 1 =
      st.doorbells_fetch_batches + 2
    rw [(update_doorbells_detail_fields api_call _).2, hfetch1]

theorem detail_refresh_throttled_witness :
    (async_update_locks_detail 0 c7_api c7_st).1.locks_fetch_batches =
        c7_st.locks_fetch_batches + 1 ∧
      async_update_locks_detail 10 c7_api (async_update_locks_detail 0 c7_api c7_st).1 =
        ((async_update_locks_detail 0 c7_api c7_st).1, false) ∧
      (async_update_locks_detail 1800 c7_api
          (async_update_locks_detail 0 c7_api c7_st).1).1.locks_fetch_batches =
        c7_st.locks_fetch_batches + 2 :=
  (detail_refresh_throttled c7_api c7_st 0 10 1800 rfl rfl (by decide) (by decide)).1

/-- C9 (amended): the doorbell accessor returns the cached detail or null
and never fails, including for a device_id with no cache entry; the lock
accessor returns the cached value for a device_id present in the cache but
raises `KeyError` for a device_id with no entry. -/
theorem detail_getters_cached_or_null (m : List (String × Option DeviceDetail))
    (device_id : String) :
    (dictGet m device_id = none → doorbell_detail_get m device_id = none ∧
      lock_detail_get m device_id = Except.error ()) ∧
    (∀ v, dictGet m device_id = some v → doorbell_detail_get m device_id = v ∧
      lock_detail_get m device_id = Except.ok v) ∧
    (∀ (now : Nat) (api_call : String → FetchResult) (st : AugustDataState),
      (async_get_doorbell_detail now api_call st device_id).2 =
        doorbell_detail_get
          (async_update_doorbells_detail now api_call st).1.doorbell_detail_by_id device_id ∧
      (async_get_lock_detail now api_call st device_id).2 =
        lock_detail_get
          (async_update_locks_detail now api_call st).1.lock_detail_by_id device_id) := by
  refine ⟨?_, ?_, fun now api_call st => ⟨rfl, rfl⟩⟩
  · intro h
    unfold doorbell_detail_get lock_detail_get
    rw [h]
    exact ⟨rfl, rfl⟩
  · intro v h
    unfold doorbell_detail_get lock_detail_get
    rw [h]
    exact ⟨rfl, rfl⟩

theorem detail_getters_cached_or_null_witness :
    (doorbell_detail_get [] "X" = none ∧ lock_detail_get [] "X" = Except.error ()) ∧
    (doorbell_detail_get c9_m "D" = some c9_detail ∧
      lock_detail_get c9_m "D" = Except.ok (some c9_detail)) :=
  ⟨(detail_getters_cached_or_null [] "X").1 rfl,
   (detail_getters_cached_or_null c9_m "D").2.1 (some c9_detail) rfl⟩

/-- C9 counterexample: with an empty lock-detail cache and the refresh
throttled, `async_get_lock_detail` on a device_id with no entry raises
`KeyError` rather than returning null, so the lock detail accessor can
fail; the doorbell accessor on the same input returns null. -/
theorem lock_detail_getter_key_error :
    (async_get_lock_detail 0 c9_api c9_st "X").2 = Except.error () ∧
    (async_get_doorbell_detail 0 c9_api c9_st "X").2 = none :=
  ⟨rfl, rfl⟩

/-! String containment lemmas. -/

theorem str_starts_nil_needle : ∀ (h : List Char), str_starts h [] = true := by
  intro h
  cases h with
  | nil => rfl
  | cons c t => rfl

theorem str_has_sub_nil_needle : ∀ (h : List Char), str_has_sub h [] = true := by
  intro h
  induction h with
  | nil => rfl
  | cons c t ih => simp [str_has_sub, str_starts_nil_needle]

theorem str_starts_append_self : ∀ (n r : List Char), str_starts (n ++ r) n = true := by
  intro n
  induction n with
  | nil => intro r; exact str_starts_nil_needle _
  | cons c cs ih => intro r; simp [str_starts, ih]

theorem str_has_sub_append_self : ∀ (n r : List Char), str_has_sub (n ++ r) n = true := by
  intro n r
  cases n with
  | nil => simp [str_has_sub_nil_needle]
  | cons c cs =>
    have hs := str_starts_append_self (c :: cs) r
    simp only [List.cons_append] at hs ⊢
    simp [str_has_sub, hs]

/-- C5 (amended): on a bridge-unavailable HTTP error the facade raises an
error whose message is the device's human-readable name, a colon, and the
vendor error text; the message always contains the device name, but the
`operation_name` ("lock"/"unlock") is passed to the wrapper and never
included in the message. -/
theorem bridge_error_message_embeds_device_name {α : Type}
    (device_name operation_name err : String) :
    call_api_operation_that_requires_bridge (α := α) device_name operation_name
        (ApiCallResult.httpError err) = Except.error (device_name ++ ": " ++ err) ∧
    contains_sub (device_name ++ ": " ++ err) device_name = true := by
  refine ⟨rfl, ?_⟩
  unfold contains_sub
  have h1 : (device_name ++ ": " ++ err).data =
      device_name.data ++ ((": " : String).data ++ err.data) := by
    rw [String.data_append, String.data_append, List.append_assoc]
  rw [h1]
  exact str_has_sub_append_self _ _

/-- C5 counterexample: `lock("D3")` failing with a bridge-offline HTTP error
raises a message that contains the device name but not the attempted
operation's name "lock": `operation_name` is never interpolated into the
message. -/
theorem bridge_error_message_lacks_operation_name :
    data_lock [c5_lockdev] "D3" (ApiCallResult.httpError "Remote bridge is offline") =
      some (Except.error "Front Door 3: Remote bridge is offline") ∧
    contains_sub "Front Door 3: Remote bridge is offline" "lock" = false ∧
    contains_sub "Front Door 3: Remote bridge is offline" "Front Door 3" = true := by
  refine ⟨rfl, by decide, by decide⟩

/-! Facade latest-activity lemmas. -/

theorem head?_filter {α : Type} (p : α → Bool) (l : List α) :
    (l.filter p).head? = l.find? p := by
  induction l with
  | nil => rfl
  | cons a t ih =>
    by_cases h : p a
    · simp [List.filter_cons, h, List.find?_cons_of_pos _ h]
    · rw [List.filter_cons, if_neg (by simpa using h), ih,
        List.find?_cons_of_neg _ (by simpa using h)]

theorem get_device_activities_eq_filter (m : List (String × List Activity))
    (device_id : String) (activity_types : List ActivityType) :
    async_get_device_activities m device_id activity_types =
      ((dictGet m device_id).getD []).filter (activity_matches activity_types) := by
  unfold async_get_device_activities activity_matches
  by_cases h : activity_types.isEmpty
  · simp [h]
  · simp [h]

theorem find?_eq_some_split {α : Type} (p : α → Bool) :
    ∀ (l : List α) (a : α), l.find? p = some a →
      ∃ l₁ l₂, l = l₁ ++ a :: l₂ ∧ p a = true ∧ ∀ b ∈ l₁, p b = false := by
  intro l
  induction l with
  | nil => intro a h; cases h
  | cons x t ih =>
    intro a h
    by_cases hx : p x
    · rw [List.find?_cons_of_pos _ hx] at h
      cases h
      exact ⟨[], t, rfl, hx, by intro b hb; cases hb⟩
    · rw [List.find?_cons_of_neg _ (by simpa using hx)] at h
      obtain ⟨l₁, l₂, heq, hpa, hprev⟩ := ih a h
      refine ⟨x :: l₁, l₂, by rw [heq, List.cons_append], hpa, ?_⟩
      intro b hb
      rcases List.mem_cons.mp hb with hb1 | hb2
      · subst hb1
        exact Bool.eq_false_iff.mpr (by simpa using hx)
      · exact hprev b hb2

/-- C8 (amended): for every device_id and requested type set,
`async_get_latest_device_activity` returns the first activity in the stored
feed-order list that matches the requested types (everything matches when
no types are requested), or null exactly when no stored activity matches;
it does not select by greatest `activity_start_time`. -/
theorem latest_device_activity_first_match (m : List (String × List Activity))
    (device_id : String) (activity_types : List ActivityType) :
    (async_get_latest_device_activity m device_id activity_types = none ↔
      ∀ a ∈ (dictGet m device_id).getD [],
        activity_matches activity_types a = false) ∧
    (∀ a, async_get_latest_device_activity m device_id activity_types = some a →
      ∃ l₁ l₂, (dictGet m device_id).getD [] = l₁ ++ a :: l₂ ∧
        activity_matches activity_types a = true ∧
        ∀ b ∈ l₁, activity_matches activity_types b = false) := by
  have hfind : async_get_latest_device_activity m device_id activity_types =
      ((dictGet m device_id).getD []).find? (activity_matches activity_types) := by
    unfold async_get_latest_device_activity
    rw [get_device_activities_eq_filter, head?_filter]
  constructor
  · rw [hfind, List.find?_eq_none]
    constructor
    · intro h a ha
      exact Bool.eq_false_iff.mpr (h a ha)
    · intro h a ha
      rw [h a ha]
      exact Bool.false_ne_true
  · intro a h
    rw [hfind] at h
    exact find?_eq_some_split _ _ a h

theorem latest_device_activity_first_match_witness :
    activity_matches [ActivityType.doorOperation] c8_a_old = true ∧
    async_get_latest_device_activity c8_m "D1" [ActivityType.lockOperation] = none := by
  refine ⟨by decide, ?_⟩
  exact (latest_device_activity_first_match c8_m "D1" [ActivityType.lockOperation]).1.mpr
    (by decide)

/-- C8 counterexample: the vendor feed lists a t=5 door-operation before a
t=10 one for the same device; after the activity refresh stores them in
feed order, `async_get_latest_device_activity` returns the t=5 record even
though the t=10 record matches the requested types — not the freshest
match. -/
theorem latest_device_activity_not_freshest :
    async_get_latest_device_activity c8_m "D1" [ActivityType.doorOperation] =
      some c8_a_old ∧
    c8_b_new ∈ async_get_device_activities c8_m "D1" [ActivityType.doorOperation] ∧
    c8_a_old.activity_start_time < c8_b_new.activity_start_time := by
  decide

/-! Entity lock-operation merge lemmas. -/

theorem call_lock_operation_refs (st : LockRefState) (entity_ref : Nat)
    (activities : List Activity) :
    (call_lock_operation st entity_ref activities).lock_detail_refs_by_id =
      st.lock_detail_refs_by_id := rfl

theorem call_lock_operation_last (st : LockRefState) (entity_ref : Nat)
    (activities : List Activity) :
    (call_lock_operation st entity_ref activities).last_locks_detail_update =
      st.last_locks_detail_update := rfl

theorem call_lock_operation_heap (st : LockRefState) (entity_ref : Nat)
    (activities : List Activity) :
    (call_lock_operation st entity_ref activities).heap =
      activities.foldl (fun h a => merge_one h entity_ref a) st.heap := rfl

theorem merge_fold_read (acts : List Activity) :
    ∀ (heap : List DeviceDetail) (r : Nat) (d : DeviceDetail), heap[r]? = some d →
      (acts.foldl (fun h a => merge_one h r a) heap)[r]? =
        some (acts.foldl update_lock_detail_from_activity d) := by
  induction acts with
  | nil =>
    intro heap r d h
    simpa using h
  | cons a rest ih =>
    intro heap r d h
    rw [List.foldl_cons, List.foldl_cons]
    have h1 : merge_one heap r a = heap.set r (update_lock_detail_from_activity d a) := by
      unfold merge_one
      rw [h]
    rw [h1]
    exact ih _ r _ (List.getElem?_set_self (List.getElem?_eq_some.mp h).1)

/-- C4: when a lock/unlock command succeeds, `_call_lock_operation` merges
every returned activity, in order, into the DeviceDetail object the entity
references; since the Detail Cache maps the device id to that same object
(the reference the entity obtained from its last read, still valid inside
the throttle window), re-reading the detail right afterwards — refresh
throttled, no network fetch, state unchanged — observes the merged object;
in particular, a single returned lock-operation activity makes its
`lock_status` immediately visible. -/
theorem lock_operation_merges_into_cached_detail (st : LockRefState)
    (device_id : String) (r : Nat) (d : DeviceDetail) (acts : List Activity)
    (a : Activity) (s : LockStatus) (now t0 : Nat)
    (refresh : LockRefState → LockRefState)
    (href : dictGet st.lock_detail_refs_by_id device_id = some (some r))
    (hheap : heap_read st.heap r = some d)
    (hth : st.last_locks_detail_update = some t0)
    (hnow : now < t0 + MIN_TIME_BETWEEN_DETAIL_UPDATES) :
    (async_get_lock_detail_ref now refresh (call_lock_operation st r acts) device_id).2 =
        some (acts.foldl update_lock_detail_from_activity d) ∧
    (async_get_lock_detail_ref now refresh (call_lock_operation st r acts) device_id).1 =
        call_lock_operation st r acts ∧
    (acts = [a] → a.activity_type = ActivityType.lockOperation →
      a.lock_status = some s →
      (async_get_lock_detail_ref now refresh (call_lock_operation st r acts) device_id).2 =
        some { d with lock_status := s }) := by
  have hskip : throttle_expired
      (call_lock_operation st r acts).last_locks_detail_update now = false := by
    rw [call_lock_operation_last, hth]
    exact throttle_expired_within t0 now hnow
  have hread : (async_get_lock_detail_ref now refresh
      (call_lock_operation st r acts) device_id).2 =
        some (acts.foldl update_lock_detail_from_activity d) := by
    unfold async_get_lock_detail_ref
    rw [hskip]
    simp only [Bool.false_eq_true, if_false]
    rw [call_lock_operation_refs, href]
    unfold heap_read at hheap ⊢
    rw [call_lock_operation_heap]
    exact merge_fold_read acts st.heap r d hheap
  refine ⟨hread, ?_, ?_⟩
  · unfold async_get_lock_detail_ref
    rw [hskip]
    simp
  · intro hacts hty hls
    rw [hread, hacts]
    simp only [List.foldl_cons, List.foldl_nil]
    unfold update_lock_detail_from_activity
    rw [hty, hls]

theorem lock_operation_merges_into_cached_detail_witness :
    (async_get_lock_detail_ref 10 (fun st => st)
        (call_lock_operation c4_st 0 [c4_act]) "D2").2 =
      some { c4_detail with lock_status := LockStatus.locked } ∧
    (async_get_lock_detail_ref 10 (fun st => st)
        (call_lock_operation c4_st 0 [c4_act]) "D2").1 =
      call_lock_operation c4_st 0 [c4_act] := by
  have h := lock_operation_merges_into_cached_detail c4_st "D2" 0 c4_detail [c4_act]
    c4_act LockStatus.locked 10 0 (fun st => st) (by decide) rfl rfl (by decide)
  exact ⟨h.2.2 rfl rfl rfl, h.2.1⟩

end August
